import Mathlib

/-!
Verification of `bastion_session_creator.py`: a script that finds or creates
an OCI Bastion session for a selected target instance, waits for it to become
active, substitutes the private-key path into the session's SSH command
template, and copies the result to the clipboard.

Modelling conventions:
* The cloud bastion service, the local filesystem and the clipboard are
  external collaborators; their behaviour is an explicit parameter `Env`.
  `Env.sessions` are the sessions currently held by the bastion service
  (summaries and full details are conflated into one record type, as the
  script only reads fields present in both).
* `sys.exit(1)` after printing messages is modelled as `Except.error msgs`
  with `msgs` the printed error lines.  An `oci.exceptions.MaximumWaitTimeExceeded`
  raised by `oci.wait_until` is not an `oci.exceptions.ServiceError`, so the
  script does not catch it; likewise a present but unreadable public key file
  raises an `OSError` other than the `FileNotFoundError` the script catches.
  In both cases the interpreter terminates with a non-zero status printing
  a traceback.  Both are modelled as a fatal error (exit status 1) whose
  message list is empty (the script itself prints nothing).
* Observable effects are collected in `Outcome`: the process exit status, the
  final printed command (if any), the list of create-session requests issued,
  and the list of clipboard writes.  Informational prints are not tracked;
  error prints are (without the leading `❌` marker).
* Python strings are modelled as `String`/`List Char`; `str.replace`
  (which replaces every non-overlapping occurrence, scanning left to right)
  is transcribed as `replaceAll` below.  `str.strip` / `int(...)`'s
  whitespace handling is transcribed over `List Char`.
-/

/-- A bastion session as observed by the script: identifier, lifecycle
state, target resource identifier (from `target_resource_details`), and the
`ssh_metadata` dictionary (association list). -/
structure Session where
  id : String
  lifecycleState : String
  targetResourceId : String
  sshMetadata : List (String × String)
deriving DecidableEq

/-- The payload of a `create_session` request, as built by
`create_new_session` (lines 66-75 of the source). -/
structure CreateSessionDetails where
  bastionId : String
  sessionType : String
  targetResourceId : String
  osUserName : String
  publicKeyContent : String
  ttlSeconds : Nat
deriving DecidableEq

/-- Outcome of `open(path, 'r')` plus `f.read()` on the public key file.
`content` is a successful read; `notFound` is `FileNotFoundError` (the only
exception the source catches, line 38); `unreadable` is any other `OSError`
raised for a present but unreadable file (e.g. `PermissionError`,
`IsADirectoryError`), which the source does not catch: it propagates out of
`main` and the interpreter exits with status 1 printing only a traceback,
without the script's guidance lines. -/
inductive FileReadResult where
  | content : String → FileReadResult
  | notFound : FileReadResult
  | unreadable : FileReadResult
deriving DecidableEq

/-- The external world the script runs against.
`sessions` is the bastion service's session store; `configOk` is whether
`oci.config.from_file()` succeeds; `lookupError` is a `ServiceError` raised
inside the `try` block of `find_active_session` (if any); `publicKey` is the
result of opening and reading the public key file;
`createResult` is the service's response to a create request (`.error` =
`ServiceError`); `pollResult sid` is the outcome of `oci.wait_until` on the
new session (`some s` = reached ACTIVE with detail record `s`, `none` =
timeout or failure, terminating the process without a clipboard write). -/
structure Env where
  sessions : List Session
  configOk : Bool
  lookupError : Option String
  publicKey : FileReadResult
  createResult : CreateSessionDetails → Except String Session
  pollResult : String → Option Session

/-- Observable effects of one invocation. -/
structure Outcome where
  exit : Nat
  command : Option String
  createRequests : List CreateSessionDetails
  clipboard : List String
  errors : List String
deriving DecidableEq

/- --- Configuration constants (lines 20-30 of the source). --- -/

/-- `TARGET_SERVERS`: static registry of friendly name → instance OCID
(a Python dict with unique keys, in insertion order). -/
def TARGET_SERVERS : List (String × String) :=
  [("server1", "ocid1.instance.oc1...."),
   ("server2", "ocid1.instance.oc1....")]

def BASTION_OCID : String := "ocid1.bastion.oc1...."

def DEFAULT_SSH_USER : String := ""

def SESSION_TTL_SECONDS : Nat := 1800

/-- `PRIVATE_KEY_PATH` (the `os.path.expanduser` expansion is
environment-dependent and irrelevant to the claims). -/
def PRIVATE_KEY_PATH : String := "~/path/to/private_key"

def PUBLIC_KEY_PATH : String := "~/path/to/public_key.pub"

/- --- Python string primitives used by the script. --- -/

/-- `str.strip()` over a character list: drop whitespace from both ends. -/
def pyStripChars (l : List Char) : List Char :=
  ((l.dropWhile Char.isWhitespace).reverse.dropWhile Char.isWhitespace).reverse

/-- `str.strip()`. -/
def pyStrip (s : String) : String := ⟨pyStripChars s.data⟩

/-- Digit-string to number: `some` iff the list is a nonempty run of ASCII
digits (the digit grammar accepted by Python's `int`, underscore separators
aside, which never arise here). -/
def digitsToNat (l : List Char) : Option Nat :=
  if l ≠ [] ∧ l.all Char.isDigit then
    some (l.foldl (fun a c => a * 10 + (c.toNat - 48)) 0)
  else none

/-- Python's `int(str)`: optional surrounding whitespace, optional sign,
then a nonempty digit run; anything else raises `ValueError` (`none`). -/
def pyInt (s : String) : Option Int :=
  match pyStripChars s.data with
  | '-' :: ds => (digitsToNat ds).map (fun n => -(n : Int))
  | '+' :: ds => (digitsToNat ds).map (fun n => (n : Int))
  | ds => (digitsToNat ds).map (fun n => (n : Int))

/-- Python's `str.replace(pat, rep)`: scan left to right, replacing each
non-overlapping occurrence of `pat`, leftmost first.  (For `pat = []`
Python would interleave `rep` everywhere; the script only ever replaces the
nonempty literal `"<privateKey>"`, and this transcription leaves the string
unchanged in that unused case.) -/
def replaceAll (pat rep : List Char) : List Char → List Char
  | [] => []
  | c :: rest =>
    if h : pat ≠ [] ∧ pat.isPrefixOf (c :: rest) then
      rep ++ replaceAll pat rep ((c :: rest).drop pat.length)
    else
      c :: replaceAll pat rep rest
termination_by s => s.length
decreasing_by
  · simp only [List.length_drop, List.length_cons]
    have := List.length_pos.mpr h.1
    omega
  · simp only [List.length_cons]
    omega

/-- `str.replace` lifted to `String`. -/
def pyReplace (s pat rep : String) : String := ⟨replaceAll pat.data rep.data s.data⟩

/-- The placeholder literal substituted at line 147 of the source. -/
def privateKeyPlaceholder : String := "<privateKey>"

/- --- Specification-side decomposition of a string by occurrences.
`occSplit pat s` returns the gap segments of the leftmost non-overlapping
occurrence scan: `s = seg₀ ++ pat ++ seg₁ ++ ⋯ ++ pat ++ segₖ` and no
segment contains `pat`.  It is used only to state and prove what
`replaceAll` does; it is not part of the script. --- -/

/-- Segments of `s` between the leftmost non-overlapping occurrences of
`pat` (always nonempty as a list of segments). -/
def occSplit (pat : List Char) : List Char → List (List Char)
  | [] => [[]]
  | c :: rest =>
    if h : pat ≠ [] ∧ pat.isPrefixOf (c :: rest) then
      [] :: occSplit pat ((c :: rest).drop pat.length)
    else
      match occSplit pat rest with
      | [] => [[c]]
      | p :: ps => (c :: p) :: ps
termination_by s => s.length
decreasing_by
  · simp only [List.length_drop, List.length_cons]
    have := List.length_pos.mpr h.1
    omega
  · simp only [List.length_cons]
    omega

/-- Join segments with a separator: the inverse of `occSplit`. -/
def joinWith (sep : List Char) : List (List Char) → List Char
  | [] => []
  | [p] => p
  | p :: ps => p ++ sep ++ joinWith sep ps

/- --- The script's functions. --- -/

/-- `read_public_key` (lines 33-41): return the stripped file content, or
print the two documented lines and `sys.exit(1)` on `FileNotFoundError`.
The `except` clause catches only `FileNotFoundError`: a present but
unreadable file raises an `OSError` that propagates uncaught, so the
interpreter exits with status 1 having printed none of the script's
messages (modelled, like the uncaught poll timeout, as `.error []`). -/
def read_public_key (env : Env) (path : String) : Except (List String) String :=
  match env.publicKey with
  | .content c => .ok (pyStrip c)
  | .notFound => .error
      ["Error: Public key file not found at " ++ path,
       "Please ensure an SSH key pair exists at the specified location."]
  | .unreadable => .error []

/-- The service-side listing `list_sessions(bastion_id=…,
session_lifecycle_state='ACTIVE').data` (lines 48-51): the sessions under
the bastion in lifecycle state ACTIVE. -/
def active_sessions (env : Env) : List Session :=
  env.sessions.filter (fun s => s.lifecycleState == "ACTIVE")

/-- `get_session(session_id=sid).data`: the service's detail record for a
session id. -/
def get_session (env : Env) (sid : String) : Option Session :=
  env.sessions.find? (fun s => s.id == sid)

/-- `find_active_session` (lines 44-60): list ACTIVE sessions, scan for the
first whose target resource id equals the target, and return its full
detail record fetched by id; `none` if no match.  A `ServiceError` in the
`try` block prints a message and exits 1. -/
def find_active_session (env : Env) (target : String) :
    Except (List String) (Option Session) :=
  match env.lookupError with
  | some msg => .error ["Error checking for sessions: " ++ msg]
  | none =>
    match (active_sessions env).find? (fun s => s.targetResourceId == target) with
    | some s => .ok (get_session env s.id)
    | none => .ok none

/-- The `CreateSessionDetails` built at lines 66-75. -/
def create_session_details (bastionId targetOcid publicKey user : String)
    (ttl : Nat) : CreateSessionDetails :=
  { bastionId := bastionId
    sessionType := "MANAGED_SSH"
    targetResourceId := targetOcid
    osUserName := user
    publicKeyContent := publicKey
    ttlSeconds := ttl }

/-- `create_new_session` (lines 62-94): issue one create request, then wait
for the session to become active.  Returns the active session detail, or a
fatal error (`ServiceError` → printed message + exit 1; poll timeout →
uncaught exception, non-zero interpreter exit with no script output).
The second component records the create requests issued. -/
def create_new_session (env : Env) (bastionId targetOcid publicKey user : String)
    (ttl : Nat) : Except (List String) Session × List CreateSessionDetails :=
  let details := create_session_details bastionId targetOcid publicKey user ttl
  (match env.createResult details with
   | .error msg => .error ["Error creating session: " ++ msg]
   | .ok s =>
     match env.pollResult s.id with
     | some active => .ok active
     | none => .error []
   , [details])

/-- One operator action at the selection prompt: a typed line, or a
`KeyboardInterrupt`/`EOFError`. -/
inductive InputEvent where
  | line : String → InputEvent
  | interrupt : InputEvent

/-- Result of the selection loop.  `pending` is a model artefact: the
modelled input stream ran out while the script would still be prompting. -/
inductive SelectResult where
  | chosen : String → SelectResult
  | cancelled : SelectResult
  | pending : SelectResult
deriving DecidableEq

/-- Python dict lookup `TARGET_SERVERS[name]` over the registry list; the
default is unreachable because `name` is always drawn from the keys. -/
def dict_get (servers : List (String × String)) (name : String) : String :=
  ((servers.find? (fun p => p.1 == name)).map Prod.snd).getD ""

/-- `select_target_server` (lines 97-118): prompt for a 1-based index into
the registry's key list; re-prompt on `ValueError` (non-numeric) or
out-of-range index; exit 0 on interrupt/EOF; return
`TARGET_SERVERS[server_list[choice_index]]` on a valid choice. -/
def select_target_server (servers : List (String × String)) :
    List InputEvent → SelectResult
  | [] => .pending
  | .interrupt :: _ => .cancelled
  | .line s :: rest =>
    match pyInt s with
    | none => select_target_server servers rest
    | some i =>
      let idx := i - 1
      if h : 0 ≤ idx ∧ idx < (servers.length : Int) then
        .chosen (dict_get servers (servers.get ⟨idx.toNat, by omega⟩).1)
      else select_target_server servers rest

/-- Lines 133-140 of `main`: find an active session; if none, read the
public key and create a session.  Collects the create requests issued. -/
def resolve_session (env : Env) (target : String) :
    Except (List String) (Option Session) × List CreateSessionDetails :=
  match find_active_session env target with
  | .error msgs => (.error msgs, [])
  | .ok (some s) => (.ok (some s), [])
  | .ok none =>
    match read_public_key env PUBLIC_KEY_PATH with
    | .error msgs => (.error msgs, [])
    | .ok key =>
      match create_new_session env BASTION_OCID target key
          DEFAULT_SSH_USER SESSION_TTL_SECONDS with
      | (.error msgs, reqs) => (.error msgs, reqs)
      | (.ok s, reqs) => (.ok (some s), reqs)

/-- The dictionary membership test and lookup on `session.ssh_metadata`. -/
def lookup_meta (m : List (String × String)) (k : String) : Option String :=
  (m.find? (fun p => p.1 == k)).map Prod.snd

/-- `main` after target selection (lines 125-156): load config, resolve a
session, require the `"command"` key in its SSH metadata, substitute the
private key path for every `<privateKey>` placeholder, copy to clipboard
and print. -/
def run_main (env : Env) (target : String) : Outcome :=
  if env.configOk then
    match resolve_session env target with
    | (.error msgs, reqs) =>
      { exit := 1, command := none, createRequests := reqs, clipboard := [],
        errors := msgs }
    | (.ok none, reqs) =>
      { exit := 1, command := none, createRequests := reqs, clipboard := [],
        errors := ["Error: Could not retrieve SSH command from the session."] }
    | (.ok (some s), reqs) =>
      match lookup_meta s.sshMetadata "command" with
      | none =>
        { exit := 1, command := none, createRequests := reqs, clipboard := [],
          errors := ["Error: Could not retrieve SSH command from the session."] }
      | some tmpl =>
        let cmd := pyReplace tmpl privateKeyPlaceholder PRIVATE_KEY_PATH
        { exit := 0, command := some cmd, createRequests := reqs,
          clipboard := [cmd], errors := [] }
  else
    { exit := 1, command := none, createRequests := [], clipboard := [],
      errors := ["Error: Default OCI config file not found at ~/.oci/config",
                 "Please run 'oci setup config' to configure your environment."] }

/-- The whole script (lines 121-156): select a target from `TARGET_SERVERS`,
then run the workflow.  `none` when the modelled input stream is exhausted
before a selection is made. -/
def script_main (env : Env) (inputs : List InputEvent) : Option Outcome :=
  match select_target_server TARGET_SERVERS inputs with
  | .pending => none
  | .cancelled =>
    some { exit := 0, command := none, createRequests := [], clipboard := [],
           errors := [] }
  | .chosen target => some (run_main env target)

/- --- Lemmas about the occurrence decomposition and `replaceAll`. --- -/

theorem occSplit_ne_nil (pat s : List Char) : occSplit pat s ≠ [] := by
  induction s using occSplit.induct pat with
  | case1 => simp [occSplit]
  | case2 c rest h ih => rw [occSplit]; simp [h]
  | case3 c rest h hm ih => exact absurd hm ih
  | case4 c rest h p ps hm ih =>
    rw [occSplit]
    rw [dif_neg h, hm]
    simp

/-- The first segment of `occSplit pat s` is a prefix of `s`. -/
theorem occSplit_head_isPrefix (pat s : List Char) :
    ∃ p ps, occSplit pat s = p :: ps ∧ p <+: s := by
  induction s using occSplit.induct pat with
  | case1 => exact ⟨[], [], by simp [occSplit], List.nil_prefix⟩
  | case2 c rest h ih =>
    refine ⟨[], occSplit pat ((c :: rest).drop pat.length), ?_, List.nil_prefix⟩
    rw [occSplit]
    simp [h]
  | case3 c rest h hm ih => exact absurd hm (occSplit_ne_nil pat rest)
  | case4 c rest h p ps hm ih =>
    obtain ⟨q, qs, hq, hpre⟩ := ih
    rw [hm] at hq
    injection hq with h1 h2
    subst h1
    subst h2
    refine ⟨c :: p, ps, ?_, List.cons_prefix_cons.mpr ⟨rfl, hpre⟩⟩
    rw [occSplit]
    rw [dif_neg h, hm]

theorem joinWith_cons_head (sep : List Char) (c : Char) (p : List Char)
    (ps : List (List Char)) :
    joinWith sep ((c :: p) :: ps) = c :: joinWith sep (p :: ps) := by
  cases ps <;> simp [joinWith]

theorem joinWith_nil_head (sep : List Char) (ps : List (List Char))
    (h : ps ≠ []) : joinWith sep ([] :: ps) = sep ++ joinWith sep ps := by
  cases ps with
  | nil => exact absurd rfl h
  | cons q qs => simp [joinWith]

/-- Joining the segments of `occSplit pat s` back with `pat` recovers `s`:
the decomposition loses nothing. -/
theorem joinWith_occSplit (pat s : List Char) :
    joinWith pat (occSplit pat s) = s := by
  induction s using occSplit.induct pat with
  | case1 => simp [occSplit, joinWith]
  | case2 c rest h ih =>
    rw [occSplit]
    rw [dif_pos h,
        joinWith_nil_head pat _ (occSplit_ne_nil pat _), ih]
    have hpre : pat <+: c :: rest := by
      have := h.2
      simpa using this
    obtain ⟨u, hu⟩ := hpre
    rw [← hu, List.drop_left]
  | case3 c rest h hm ih => exact absurd hm (occSplit_ne_nil pat rest)
  | case4 c rest h p ps hm ih =>
    rw [occSplit]
    rw [dif_neg h, hm, joinWith_cons_head]
    rw [hm] at ih
    rw [ih]

/-- `replaceAll` rebuilds the string from the same segments, with `rep` in
place of each occurrence of `pat`: every occurrence is replaced and nothing
else changes. -/
theorem replaceAll_eq_joinWith (pat rep s : List Char) :
    replaceAll pat rep s = joinWith rep (occSplit pat s) := by
  induction s using occSplit.induct pat with
  | case1 => simp [replaceAll, occSplit, joinWith]
  | case2 c rest h ih =>
    rw [replaceAll, occSplit]
    rw [dif_pos h, dif_pos h,
        joinWith_nil_head rep _ (occSplit_ne_nil pat _), ih]
  | case3 c rest h hm ih => exact absurd hm (occSplit_ne_nil pat rest)
  | case4 c rest h p ps hm ih =>
    rw [replaceAll, occSplit]
    rw [dif_neg h, dif_neg h, hm, joinWith_cons_head]
    rw [hm] at ih
    rw [ih]

/-- No segment of the decomposition contains an occurrence of `pat`:
`replaceAll` misses no occurrence. -/
theorem occSplit_no_occurrence (pat : List Char) (hne : pat ≠ []) (s : List Char) :
    ∀ p ∈ occSplit pat s, ¬ pat <:+: p := by
  induction s using occSplit.induct pat with
  | case1 =>
    intro p hp hinf
    simp [occSplit] at hp
    subst hp
    obtain ⟨t, u, ht⟩ := hinf
    simp only [List.append_eq_nil] at ht
    exact hne ht.1.2
  | case2 c rest h ih =>
    intro p hp
    rw [occSplit] at hp
    rw [dif_pos h] at hp
    rcases List.mem_cons.mp hp with rfl | hp
    · intro hinf
      obtain ⟨t, u, ht⟩ := hinf
      simp only [List.append_eq_nil] at ht
      exact hne ht.1.2
    · exact ih p hp
  | case3 c rest h hm ih => exact absurd hm (occSplit_ne_nil pat rest)
  | case4 c rest h p ps hm ih =>
    intro q hq
    rw [occSplit] at hq
    rw [dif_neg h, hm] at hq
    rcases List.mem_cons.mp hq with rfl | hq
    · intro hinf
      obtain ⟨t, u, ht⟩ := hinf
      match t, ht with
      | [], ht =>
        have hppre : pat <+: c :: p := ⟨u, ht⟩
        obtain ⟨q', qs', hq', hqpre⟩ := occSplit_head_isPrefix pat rest
        rw [hm] at hq'
        injection hq' with h1 h2
        subst h1
        have : pat <+: c :: rest :=
          hppre.trans (List.cons_prefix_cons.mpr ⟨rfl, hqpre⟩)
        exact h ⟨hne, by simpa using this⟩
      | c' :: t', ht =>
        have hp' : p = t' ++ (pat ++ u) := by
          have := ht
          simp only [List.cons_append, List.append_assoc] at this
          injection this with _ h2
          exact h2.symm
        exact ih p (by rw [hm]; exact List.mem_cons_self p ps)
          ⟨t', u, by rw [hp']; simp⟩
    · exact ih q (by rw [hm]; exact List.mem_cons_of_mem p hq)

/- --- Workflow helper lemmas. --- -/

/-- The create requests issued by one `create_new_session` call: exactly the
one payload built from its arguments. -/
theorem create_new_session_snd (env : Env) (b t k u : String) (ttl : Nat) :
    (create_new_session env b t k u ttl).2 = [create_session_details b t k u ttl] :=
  rfl

/-- One resolution issues no create request, or exactly one, built from the
stripped public key. -/
theorem resolve_session_requests (env : Env) (target : String) :
    (resolve_session env target).2 = [] ∨
    ∃ k, read_public_key env PUBLIC_KEY_PATH = .ok k ∧
      (resolve_session env target).2 =
        [create_session_details BASTION_OCID target k DEFAULT_SSH_USER
          SESSION_TTL_SECONDS] := by
  unfold resolve_session
  split
  · exact .inl rfl
  · exact .inl rfl
  · split
    · exact .inl rfl
    · rename_i key hkey
      split
      · rename_i msgs reqs hc
        right
        refine ⟨key, hkey, ?_⟩
        have h2 := congrArg Prod.snd hc
        rw [create_new_session_snd] at h2
        exact h2.symm
      · rename_i srec reqs hc
        right
        refine ⟨key, hkey, ?_⟩
        have h2 := congrArg Prod.snd hc
        rw [create_new_session_snd] at h2
        exact h2.symm

/-- `run_main` forwards exactly the create requests of the resolution phase
(none when the config file is missing). -/
theorem run_main_createRequests (env : Env) (target : String) :
    (run_main env target).createRequests =
      if env.configOk then (resolve_session env target).2 else [] := by
  unfold run_main
  split
  · split
    · rename_i msgs reqs hm
      rw [hm]
    · rename_i reqs hm
      rw [hm]
    · rename_i s reqs hm
      split
      · rw [hm]
      · rw [hm]
  · rfl

/-- When some listed ACTIVE session matches the target, the lookup finds the
first such entry and fetching its detail record by id succeeds. -/
theorem find_active_session_found (env : Env) (target : String)
    (hle : env.lookupError = none)
    (h : ∃ s ∈ active_sessions env, s.targetResourceId = target) :
    ∃ s d, (active_sessions env).find? (fun x => x.targetResourceId == target) = some s
      ∧ get_session env s.id = some d
      ∧ find_active_session env target = .ok (some d) := by
  obtain ⟨s0, hs0, ht0⟩ := h
  have hfind : ((active_sessions env).find?
      (fun x => x.targetResourceId == target)).isSome := by
    rw [List.find?_isSome]
    exact ⟨s0, hs0, by simpa using ht0⟩
  obtain ⟨s, hs⟩ := Option.isSome_iff_exists.mp hfind
  have hmem : s ∈ env.sessions :=
    List.mem_of_mem_filter (List.mem_of_find?_eq_some hs)
  have hget : (env.sessions.find? (fun x => x.id == s.id)).isSome := by
    rw [List.find?_isSome]
    exact ⟨s, hmem, by simp⟩
  obtain ⟨d, hd⟩ := Option.isSome_iff_exists.mp hget
  refine ⟨s, d, hs, hd, ?_⟩
  unfold find_active_session
  simp only [hle, hs]
  unfold get_session
  rw [hd]

/-- When some listed ACTIVE session matches, the resolution phase issues no
create request. -/
theorem resolve_found_no_create (env : Env) (target : String)
    (h : ∃ s ∈ active_sessions env, s.targetResourceId = target) :
    (resolve_session env target).2 = [] := by
  cases hle : env.lookupError with
  | some msg =>
    unfold resolve_session find_active_session
    rw [hle]
  | none =>
    obtain ⟨s, d, hs, hd, hfa⟩ := find_active_session_found env target hle h
    unfold resolve_session
    rw [hfa]

/-- When no listed ACTIVE session matches, the lookup returns `none`
(not an error). -/
theorem find_active_session_not_found (env : Env) (target : String)
    (hle : env.lookupError = none)
    (hnone : ∀ s ∈ active_sessions env, s.targetResourceId ≠ target) :
    find_active_session env target = .ok none := by
  have hfind : (active_sessions env).find?
      (fun x => x.targetResourceId == target) = none := by
    rw [List.find?_eq_none]
    intro x hx
    simpa using hnone x hx
  unfold find_active_session
  rw [hle, hfind]

/-- In a registry with unique names, looking up the name of the `k`-th entry
finds exactly the `k`-th entry. -/
theorem find?_fst_get (servers : List (String × String))
    (hnd : (servers.map Prod.fst).Nodup) (k : Nat) (hk : k < servers.length) :
    servers.find? (fun p => p.1 == (servers.get ⟨k, hk⟩).1)
      = some (servers.get ⟨k, hk⟩) := by
  induction servers generalizing k with
  | nil => exact absurd hk (by simp)
  | cons hd tl ih =>
    simp only [List.map_cons, List.nodup_cons] at hnd
    cases k with
    | zero =>
      have : (hd.1 == hd.1) = true := by simp
      exact List.find?_cons_of_pos _ this
    | succ k' =>
      have hk' : k' < tl.length := by simpa using hk
      have hgetc : (hd :: tl).get ⟨k' + 1, hk⟩ = tl.get ⟨k', hk'⟩ := rfl
      rw [hgetc]
      have hne : ¬ hd.1 = (tl.get ⟨k', hk'⟩).1 := by
        intro heq
        exact hnd.1 (heq ▸ List.mem_map_of_mem Prod.fst (tl.get_mem k' hk'))
      rw [List.find?_cons_of_neg _ (by simpa using hne)]
      exact ih hnd.2 k' hk'

/-- Registry lookup by the `k`-th name returns the `k`-th value (unique
names). -/
theorem dict_get_of_nodup (servers : List (String × String))
    (hnd : (servers.map Prod.fst).Nodup) (k : Nat) (hk : k < servers.length) :
    dict_get servers (servers.get ⟨k, hk⟩).1 = (servers.get ⟨k, hk⟩).2 := by
  unfold dict_get
  rw [find?_fst_get servers hnd k hk]
  rfl

/-- A string with no occurrence of `pat` is returned unchanged. -/
theorem replaceAll_of_no_occurrence (pat rep s : List Char)
    (h : ¬ pat <:+: s) : replaceAll pat rep s = s := by
  induction s using replaceAll.induct pat rep with
  | case1 => simp [replaceAll]
  | case2 c rest hcond ih =>
    exfalso
    have hpre : pat <+: c :: rest := by
      have := hcond.2
      simpa using this
    obtain ⟨u, hu⟩ := hpre
    exact h ⟨[], u, by simpa using hu⟩
  | case3 c rest hcond ih =>
    rw [replaceAll]
    rw [dif_neg hcond]
    rw [ih]
    intro ⟨t, u, ht⟩
    exact h ⟨c :: t, u, by rw [← ht]; rfl⟩

/- --- Concrete instances used by the witnesses. --- -/

/-- An ACTIVE session for target `ocid.A` with an SSH command template. -/
def sessA : Session :=
  { id := "s1", lifecycleState := "ACTIVE", targetResourceId := "ocid.A",
    sshMetadata := [("command", "ssh -i <privateKey> opc@hostA")] }

/-- An ACTIVE session whose SSH metadata lacks the `"command"` key. -/
def sessNoCmd : Session :=
  { id := "s2", lifecycleState := "ACTIVE", targetResourceId := "ocid.B",
    sshMetadata := [] }

/-- The session returned by a successful create request, not yet active. -/
def newSess : Session :=
  { id := "new1", lifecycleState := "CREATING", targetResourceId := "ocid.A",
    sshMetadata := [] }

/-- A world with one matching ACTIVE session and a service that would
refuse any create request. -/
def envFound : Env :=
  { sessions := [sessA], configOk := true, lookupError := none,
    publicKey := .content "PK", createResult := fun _ => .error "unavailable",
    pollResult := fun _ => none }

/-- A world whose only ACTIVE session has no SSH command template. -/
def envNoCmd : Env :=
  { sessions := [sessNoCmd], configOk := true, lookupError := none,
    publicKey := .content "PK", createResult := fun _ => .error "unavailable",
    pollResult := fun _ => none }

/-- A world with no sessions: creation succeeds but the poll never sees the
session become ACTIVE. -/
def envEmpty : Env :=
  { sessions := [], configOk := true, lookupError := none,
    publicKey := .content "PK", createResult := fun _ => .ok newSess,
    pollResult := fun _ => none }

/-- A world with no sessions and a missing public key file. -/
def envNoKey : Env :=
  { sessions := [], configOk := true, lookupError := none,
    publicKey := .notFound, createResult := fun _ => .error "unavailable",
    pollResult := fun _ => none }

/-- A world with no sessions and a present but unreadable public key file
(`PermissionError` on `open`). -/
def envKeyUnreadable : Env :=
  { sessions := [], configOk := true, lookupError := none,
    publicKey := .unreadable, createResult := fun _ => .error "unavailable",
    pollResult := fun _ => none }

/- --- Claims. --- -/

/-- C1: Per invocation, at most one create-session request is issued, and
whenever an active session whose target resource identifier equals the
selected target exists in the listing, that existing session is reused and
no create request is ever made. -/
theorem at_most_one_create_and_reuse (env : Env) (target : String) :
    (run_main env target).createRequests.length ≤ 1
  ∧ ((∃ s ∈ active_sessions env, s.targetResourceId = target) →
      (run_main env target).createRequests = []) := by
  constructor
  · rw [run_main_createRequests]
    split
    · rcases resolve_session_requests env target with h | ⟨k, -, h⟩ <;> simp [h]
    · simp
  · intro h
    rw [run_main_createRequests]
    split
    · exact resolve_found_no_create env target h
    · rfl

/-- C1 witness: with a matching ACTIVE session in the listing, no create
request is issued. -/
theorem at_most_one_create_and_reuse_witness :
    (run_main envFound "ocid.A").createRequests = [] :=
  (at_most_one_create_and_reuse envFound "ocid.A").2
    ⟨sessA, by decide, by decide⟩

/-- C2: For every session list containing at least one session with
lifecycle state active and target resource identifier equal to the
requested target, the lookup returns the full detail record of the first
such session (fetched by its identifier) and the workflow never issues a
create request. -/
theorem lookup_returns_first_active_match (env : Env) (target : String)
    (hle : env.lookupError = none)
    (h : ∃ s ∈ active_sessions env, s.targetResourceId = target) :
    ∃ s, (active_sessions env).find? (fun x => x.targetResourceId == target) = some s
      ∧ s.targetResourceId = target
      ∧ find_active_session env target = .ok (get_session env s.id)
      ∧ (get_session env s.id).isSome
      ∧ (run_main env target).createRequests = [] := by
  obtain ⟨s, d, hs, hd, hfa⟩ := find_active_session_found env target hle h
  refine ⟨s, hs, ?_, ?_, ?_, ?_⟩
  · have := List.find?_some hs
    simpa using this
  · rw [hfa, hd]
  · rw [hd]
    rfl
  · rw [run_main_createRequests]
    split
    · exact resolve_found_no_create env target h
    · rfl

/-- C2 witness: in `envFound` the lookup for `ocid.A` returns `sessA`'s
detail record and no create request is issued. -/
theorem lookup_returns_first_active_match_witness :
    ∃ s, (active_sessions envFound).find?
        (fun x => x.targetResourceId == "ocid.A") = some s
      ∧ s.targetResourceId = "ocid.A"
      ∧ find_active_session envFound "ocid.A" = .ok (get_session envFound s.id)
      ∧ (get_session envFound s.id).isSome
      ∧ (run_main envFound "ocid.A").createRequests = [] :=
  lookup_returns_first_active_match envFound "ocid.A" rfl
    ⟨sessA, by decide, by decide⟩

/-- C3: For every session list containing no session with active lifecycle
state and matching target resource identifier, the lookup returns "not
found" (a non-error result) and the workflow then invokes session creation
exactly once (given that the run reaches creation: the config file loads
and the public key file is readable, the preconditions of §4.3). -/
theorem lookup_not_found_creates_once (env : Env) (target : String)
    (hcfg : env.configOk = true)
    (hle : env.lookupError = none)
    (hnone : ∀ s ∈ active_sessions env, s.targetResourceId ≠ target)
    (hkey : ∃ k, env.publicKey = FileReadResult.content k) :
    find_active_session env target = .ok none
  ∧ (run_main env target).createRequests.length = 1 := by
  have hfa := find_active_session_not_found env target hle hnone
  refine ⟨hfa, ?_⟩
  rw [run_main_createRequests, if_pos hcfg]
  obtain ⟨k, hk⟩ := hkey
  unfold resolve_session
  rw [hfa]
  unfold read_public_key
  rw [hk]
  rcases hc : create_new_session env BASTION_OCID target (pyStrip k)
      DEFAULT_SSH_USER SESSION_TTL_SECONDS with ⟨res, reqs⟩
  have h2 := congrArg Prod.snd hc
  rw [create_new_session_snd] at h2
  cases res <;> simp [hc, ← h2]

/-- C3 witness: with an empty session store, readable key and working
config, the lookup is "not found" and exactly one create request is
issued. -/
theorem lookup_not_found_creates_once_witness :
    find_active_session envEmpty "ocid.A" = .ok none
  ∧ (run_main envEmpty "ocid.A").createRequests.length = 1 :=
  lookup_not_found_creates_once envEmpty "ocid.A" rfl rfl (by decide) ⟨"PK", rfl⟩

/-- C4: For every command template string, command assembly replaces every
occurrence of the private-key placeholder token with the configured private
key path: a template with zero occurrences is returned unchanged, and a
template with multiple occurrences has all of them replaced; no other
transformation is applied.  (Formally: the template decomposes as segments
separated by placeholder occurrences, none of the segments contains the
placeholder, and assembly rebuilds exactly those segments with the key path
in place of each occurrence.) -/
theorem command_assembly_replaces_all_occurrences (tmpl rep : List Char) :
    (pyReplace ⟨tmpl⟩ privateKeyPlaceholder ⟨rep⟩).data
        = joinWith rep (occSplit privateKeyPlaceholder.data tmpl)
  ∧ joinWith privateKeyPlaceholder.data (occSplit privateKeyPlaceholder.data tmpl)
        = tmpl
  ∧ (∀ p ∈ occSplit privateKeyPlaceholder.data tmpl,
        ¬ privateKeyPlaceholder.data <:+: p)
  ∧ (¬ privateKeyPlaceholder.data <:+: tmpl →
        pyReplace ⟨tmpl⟩ privateKeyPlaceholder ⟨rep⟩ = ⟨tmpl⟩) := by
  refine ⟨?_, joinWith_occSplit _ _,
    occSplit_no_occurrence _ (by decide) _, ?_⟩
  · exact replaceAll_eq_joinWith _ _ _
  · intro h
    unfold pyReplace
    rw [replaceAll_of_no_occurrence _ _ _ h]

/-- C4 witness: assembly on a template with two occurrences, and the
unchanged-template conclusion discharged on a placeholder-free template. -/
theorem command_assembly_replaces_all_occurrences_witness :
    ((pyReplace ⟨"a<privateKey>b<privateKey>".data⟩ privateKeyPlaceholder
        ⟨"K".data⟩).data
      = joinWith "K".data
          (occSplit privateKeyPlaceholder.data "a<privateKey>b<privateKey>".data))
  ∧ pyReplace ⟨"ssh opc@h".data⟩ privateKeyPlaceholder ⟨"K".data⟩
      = ⟨"ssh opc@h".data⟩ :=
  ⟨(command_assembly_replaces_all_occurrences
      "a<privateKey>b<privateKey>".data "K".data).1,
   (command_assembly_replaces_all_occurrences
      "ssh opc@h".data "K".data).2.2.2 (by decide)⟩

/-- C5: If the active session record lacks the SSH command field in its SSH
metadata, the process exits with non-zero status after printing the
documented "could not retrieve SSH command" message, and the clipboard is
never written. -/
theorem missing_ssh_command_exits_without_clipboard (env : Env)
    (target : String) (s : Session) (reqs : List CreateSessionDetails)
    (hcfg : env.configOk = true)
    (hres : resolve_session env target = (.ok (some s), reqs))
    (hcmd : lookup_meta s.sshMetadata "command" = none) :
    run_main env target =
      { exit := 1, command := none, createRequests := reqs, clipboard := [],
        errors := ["Error: Could not retrieve SSH command from the session."] } := by
  unfold run_main
  simp only [hcfg, if_true, hres, hcmd]

/-- C5 witness: `envNoCmd`'s matching session has no `"command"` entry; the
run exits 1 with empty clipboard. -/
theorem missing_ssh_command_exits_without_clipboard_witness :
    run_main envNoCmd "ocid.B" =
      { exit := 1, command := none, createRequests := [], clipboard := [],
        errors := ["Error: Could not retrieve SSH command from the session."] } :=
  missing_ssh_command_exits_without_clipboard envNoCmd "ocid.B" sessNoCmd []
    rfl rfl rfl

/-- C6 counterexample: a present but unreadable public key file.  The
`except` at line 38 of the source catches only `FileNotFoundError`, so the
`OSError` propagates uncaught: the run exits non-zero with no create
request, but the script prints none of its messages — in particular not the
documented "Public key file not found" guidance — refuting the claim's
"missing or unreadable ... with the documented guidance message" as
stated. -/
theorem missing_public_key_guidance_counterexample :
    (run_main envKeyUnreadable "ocid.A").exit = 1
  ∧ (run_main envKeyUnreadable "ocid.A").createRequests = []
  ∧ (run_main envKeyUnreadable "ocid.A").errors = []
  ∧ ("Error: Public key file not found at " ++ PUBLIC_KEY_PATH)
      ∉ (run_main envKeyUnreadable "ocid.A").errors := by
  refine ⟨rfl, rfl, rfl, by decide⟩

/-- C6 (amended): in a run that needs the key (config loads, listing
succeeds, no active session matches), a missing public key file
(`FileNotFoundError`) makes the process exit non-zero with the documented
guidance message and session creation is never invoked; a present but
unreadable key file also makes the process exit non-zero before any create
request or clipboard write, but via an uncaught exception, without the
documented guidance message. -/
theorem missing_public_key_fatal_no_create (env : Env) (target : String)
    (hcfg : env.configOk = true)
    (hle : env.lookupError = none)
    (hnone : ∀ s ∈ active_sessions env, s.targetResourceId ≠ target) :
    (env.publicKey = FileReadResult.notFound →
      run_main env target =
        { exit := 1, command := none, createRequests := [], clipboard := [],
          errors := ["Error: Public key file not found at " ++ PUBLIC_KEY_PATH,
            "Please ensure an SSH key pair exists at the specified location."] })
  ∧ (env.publicKey = FileReadResult.unreadable →
      run_main env target =
        { exit := 1, command := none, createRequests := [], clipboard := [],
          errors := [] }) := by
  have hfa := find_active_session_not_found env target hle hnone
  constructor
  · intro hkey
    unfold run_main resolve_session read_public_key
    simp only [hcfg, if_true, hfa, hkey]
  · intro hkey
    unfold run_main resolve_session read_public_key
    simp only [hcfg, if_true, hfa, hkey]

/-- C6 witness: missing key file in `envNoKey`: exit 1, no create request,
documented guidance printed; unreadable key file in `envKeyUnreadable`:
exit 1, no create request, no script output. -/
theorem missing_public_key_fatal_no_create_witness :
    run_main envNoKey "ocid.A" =
      { exit := 1, command := none, createRequests := [], clipboard := [],
        errors := ["Error: Public key file not found at " ++ PUBLIC_KEY_PATH,
          "Please ensure an SSH key pair exists at the specified location."] }
  ∧ run_main envKeyUnreadable "ocid.A" =
      { exit := 1, command := none, createRequests := [], clipboard := [],
        errors := [] } :=
  ⟨(missing_public_key_fatal_no_create envNoKey "ocid.A" rfl rfl
      (by decide)).1 rfl,
   (missing_public_key_fatal_no_create envKeyUnreadable "ocid.A" rfl rfl
      (by decide)).2 rfl⟩

/-- C7: If the poll after session creation exceeds the maximum total wait
without the session reaching the active state, the operation fails as a
fatal error: the process exits with non-zero status, no command is emitted,
and the clipboard is never written. -/
theorem poll_timeout_fatal_no_clipboard (env : Env) (target k : String)
    (s0 : Session)
    (hcfg : env.configOk = true)
    (hle : env.lookupError = none)
    (hnone : ∀ s ∈ active_sessions env, s.targetResourceId ≠ target)
    (hkey : env.publicKey = FileReadResult.content k)
    (hcr : env.createResult (create_session_details BASTION_OCID target
        (pyStrip k) DEFAULT_SSH_USER SESSION_TTL_SECONDS) = .ok s0)
    (hpoll : env.pollResult s0.id = none) :
    run_main env target =
      { exit := 1, command := none,
        createRequests := [create_session_details BASTION_OCID target
          (pyStrip k) DEFAULT_SSH_USER SESSION_TTL_SECONDS],
        clipboard := [], errors := [] } := by
  have hfa := find_active_session_not_found env target hle hnone
  unfold run_main resolve_session read_public_key create_new_session
  simp only [hcfg, if_true, hfa, hkey, hcr, hpoll]

/-- C7 witness: in `envEmpty` the create succeeds but the poll never sees
ACTIVE: exit 1, no command, no clipboard write. -/
theorem poll_timeout_fatal_no_clipboard_witness :
    run_main envEmpty "ocid.B" =
      { exit := 1, command := none,
        createRequests := [create_session_details BASTION_OCID "ocid.B"
          (pyStrip "PK") DEFAULT_SSH_USER SESSION_TTL_SECONDS],
        clipboard := [], errors := [] } :=
  poll_timeout_fatal_no_clipboard envEmpty "ocid.B" "PK" newSess
    rfl rfl (by decide) rfl rfl rfl

/-- C8: For every valid operator selection of a registry name (an integer
between 1 and the registry size, 1-based), target selection returns exactly
the registry entry's identifier value for that name, and non-numeric or
out-of-range input causes a re-prompt rather than termination. -/
theorem selection_returns_registry_value (servers : List (String × String))
    (hnd : (servers.map Prod.fst).Nodup) (s : String)
    (rest : List InputEvent) (i : Int) (p : String × String)
    (hi : pyInt s = some i) :
    (1 ≤ i → servers.get? (i.toNat - 1) = some p →
      select_target_server servers (.line s :: rest) = .chosen p.2)
  ∧ ((i < 1 ∨ (servers.length : Int) < i) →
      select_target_server servers (.line s :: rest)
        = select_target_server servers rest)
  ∧ (∀ s', pyInt s' = none →
      select_target_server servers (.line s' :: rest)
        = select_target_server servers rest) := by
  refine ⟨?_, ?_, ?_⟩
  · intro h1 hp
    obtain ⟨hlt, hget⟩ := List.get?_eq_some.mp hp
    have hidx : (i - 1).toNat = i.toNat - 1 := by omega
    have hcond : 0 ≤ i - 1 ∧ i - 1 < (servers.length : Int) := by
      refine ⟨by omega, by omega⟩
    have hp2 : servers.get? ((i - 1).toNat) = some p := by
      rw [hidx]
      exact hp
    obtain ⟨pf, hget2⟩ := List.get?_eq_some.mp hp2
    unfold select_target_server
    simp only [hi]
    rw [dif_pos hcond]
    have hdg := dict_get_of_nodup servers hnd ((i - 1).toNat) pf
    rw [hget2] at hdg
    rw [hget2, hdg]
  · intro hrange
    conv_lhs => unfold select_target_server
    simp only [hi]
    rw [dif_neg (by omega)]
  · intro s' h'
    conv_lhs => unfold select_target_server
    simp only [h']

/-- C8 witness: choosing "2" selects `server2`'s OCID; an out-of-range "9"
and a non-numeric "abc" both re-prompt. -/
theorem selection_returns_registry_value_witness :
    select_target_server TARGET_SERVERS [.line "2"]
      = .chosen "ocid1.instance.oc1...."
  ∧ select_target_server TARGET_SERVERS [.line "9", .line "2"]
      = select_target_server TARGET_SERVERS [.line "2"]
  ∧ select_target_server TARGET_SERVERS [.line "abc", .line "2"]
      = select_target_server TARGET_SERVERS [.line "2"] :=
  ⟨(selection_returns_registry_value TARGET_SERVERS (by decide) "2" [] 2
      ("server2", "ocid1.instance.oc1....") rfl).1 (by decide) rfl,
   (selection_returns_registry_value TARGET_SERVERS (by decide) "9" [.line "2"] 9
      ("server2", "ocid1.instance.oc1....") rfl).2.1 (by decide),
   (selection_returns_registry_value TARGET_SERVERS (by decide) "2" [.line "2"] 2
      ("server2", "ocid1.instance.oc1....") rfl).2.2 "abc" rfl⟩

/-- C9: On operator cancellation during the selection prompt (interrupt
signal or end-of-input), the process terminates immediately and gracefully
with exit code 0, not treated as an error: no create request, no clipboard
write, no error output. -/
theorem cancellation_exits_zero (env : Env) (inputs rest : List InputEvent) :
    (select_target_server TARGET_SERVERS inputs = .cancelled →
      script_main env inputs =
        some { exit := 0, command := none, createRequests := [],
               clipboard := [], errors := [] })
  ∧ select_target_server TARGET_SERVERS (.interrupt :: rest) = .cancelled := by
  constructor
  · intro h
    unfold script_main
    rw [h]
  · rfl

/-- C9 witness: an interrupt at the prompt ends the run with exit 0 and no
effects. -/
theorem cancellation_exits_zero_witness :
    script_main envFound [.interrupt] =
      some { exit := 0, command := none, createRequests := [], clipboard := [],
             errors := [] } :=
  (cancellation_exits_zero envFound [.interrupt] []).1 rfl

/-- C10: Every create-session request uses the same fixed remote
operating-system user (the constant `DEFAULT_SSH_USER`, not looked up per
target) and the same fixed time-to-live of 1800 seconds, regardless of
which target the operator selects. -/
theorem create_uses_fixed_user_and_ttl (env : Env) (target : String) :
    DEFAULT_SSH_USER = "" ∧ SESSION_TTL_SECONDS = 1800
  ∧ ∀ d ∈ (run_main env target).createRequests,
      d.osUserName = DEFAULT_SSH_USER ∧ d.ttlSeconds = SESSION_TTL_SECONDS := by
  refine ⟨rfl, rfl, ?_⟩
  intro d hd
  rw [run_main_createRequests] at hd
  by_cases hcfg : env.configOk
  · rw [if_pos hcfg] at hd
    rcases resolve_session_requests env target with h | ⟨k, -, h⟩
    · rw [h] at hd
      exact absurd hd (List.not_mem_nil d)
    · rw [h] at hd
      have hde : d = create_session_details BASTION_OCID target k
          DEFAULT_SSH_USER SESSION_TTL_SECONDS := by
        simpa using hd
      rw [hde]
      exact ⟨rfl, rfl⟩
  · rw [if_neg hcfg] at hd
    exact absurd hd (List.not_mem_nil d)

/-- C10 witness: the request issued in `envEmpty` carries the fixed user
and TTL. -/
theorem create_uses_fixed_user_and_ttl_witness :
    (create_session_details BASTION_OCID "ocid.B" (pyStrip "PK")
        DEFAULT_SSH_USER SESSION_TTL_SECONDS).osUserName = DEFAULT_SSH_USER
  ∧ (create_session_details BASTION_OCID "ocid.B" (pyStrip "PK")
        DEFAULT_SSH_USER SESSION_TTL_SECONDS).ttlSeconds = SESSION_TTL_SECONDS :=
  (create_uses_fixed_user_and_ttl envEmpty "ocid.B").2.2 _ (by decide)
